import Mathlib

/-!
Verification of the streaming-aggregation core of the buzzline mortality
pipeline: the file-tailing consumer `consumer_mortality_anjana.py`, the
simpler `project_consumer_anjana.py`, and the producer
`producer_mortality_anjana.py`.  Rates and standard errors are modelled as
rationals; Python dictionaries become total functions with empty default
(mirroring `defaultdict`), the `deque(maxlen=20)` becomes a drop-oldest list
append, and the global mutable module state becomes an explicit
`ConsumerState` threaded through the step functions.
-/

/-- Result of JSON-decoding the `rate` / `se` field of a message, as seen by
Python `float(...)`: either a numeric value (numbers and numeric strings
coerce successfully) or a value on which `float` raises `ValueError` /
`TypeError` (non-numeric strings, `null`, containers). -/
inductive JNum where
  | num (q : ℚ)
  | bad
deriving DecidableEq, Repr

/-- One JSON object read from `data/project_live.json`.  A field holds `none`
when the key is absent from the object (Python `dict.get` then returns the
supplied default). -/
structure RawMessage where
  region : Option String
  status : Option String
  sex : Option String
  cause : Option String
  rate : Option JNum
  se : Option JNum
  timestamp : Option String
  author : Option String
  keyword_mentioned : Option String
deriving DecidableEq, Repr

/-- The dictionary returned by `extract_mortality_data` on success. -/
structure MortalityData where
  region : Option String
  status : Option String
  sex : Option String
  cause : Option String
  rate : ℚ
  se : ℚ
  timestamp : Option String
  author : Option String
  keyword_mentioned : Option String
deriving DecidableEq, Repr

/-- `float(message.get("rate", 0))`: an absent field falls back to the
default `0`, a numeric value coerces, and a non-coercible value raises
(propagated here as `none`, caught by the `except` clause of
`extract_mortality_data`). -/
def coerceNum : Option JNum → Option ℚ
  | none => some 0
  | some (JNum.num q) => some q
  | some JNum.bad => none

/-- `extract_mortality_data` (consumer lines 64-80): builds the data dict,
returning `None` exactly when coercing `rate` or `se` raises. -/
def extract_mortality_data (m : RawMessage) : Option MortalityData :=
  match coerceNum m.rate, coerceNum m.se with
  | some r, some s =>
      some { region := m.region, status := m.status, sex := m.sex,
             cause := m.cause, rate := r, se := s,
             timestamp := m.timestamp, author := m.author,
             keyword_mentioned := m.keyword_mentioned }
  | _, _ => none

/-- `rate >= 100` (consumer line 99). -/
def is_high_mortality (rate : ℚ) : Bool := decide (100 ≤ rate)

/-- `deque(maxlen=cap).append`: append on the right, evicting from the left
when the buffer is full (the result is the last `cap` elements). -/
def dequeAppend (cap : ℕ) (xs : List ℚ) (v : ℚ) : List ℚ :=
  let ys := xs ++ [v]
  ys.drop (ys.length - cap)

/-- Point update of the `mortality_rates` defaultdict-of-deques at one key
(capacity 20, consumer line 33). -/
def updMR (f : String × Option String → List ℚ) (k : String × Option String)
    (v : ℚ) : String × Option String → List ℚ :=
  fun k2 => if k2 = k then dequeAppend 20 (f k) v else f k2

/-- Point update of a nested defaultdict-of-lists
(`cause_gender_stats` / `cause_region_stats`, consumer lines 34-35):
plain list append, no eviction. -/
def upd2 (f : Option String → Option String → List ℚ)
    (c g : Option String) (v : ℚ) : Option String → Option String → List ℚ :=
  fun c2 g2 => if c2 = c ∧ g2 = g then f c g ++ [v] else f c2 g2

/-- The consumer's module-level mutable state (consumer lines 33-37). -/
structure ConsumerState where
  mortality_rates : String × Option String → List ℚ
  cause_gender_stats : Option String → Option String → List ℚ
  cause_region_stats : Option String → Option String → List ℚ
  high_mortality_count : ℕ
  processed_messages : List String

/-- State at process start: every map empty, counter zero, seen-set empty. -/
def initState : ConsumerState where
  mortality_rates := fun _ => []
  cause_gender_stats := fun _ _ => []
  cause_region_stats := fun _ _ => []
  high_mortality_count := 0
  processed_messages := []

/-- Python f-string interpolation of a possibly-`None` value. -/
def pyStr : Option String → String
  | none => "None"
  | some s => s

/-- The de-duplication identity
`f"{message.get('author')}_{message.get('timestamp')}"` (consumer line 146). -/
def msg_id (m : RawMessage) : String :=
  pyStr m.author ++ "_" ++ pyStr m.timestamp

/-- `process_and_store_message` (consumer lines 82-129), restricted to the
in-memory aggregate state (the SQLite insert is external persistence). -/
def process_and_store_message (m : RawMessage) (st : ConsumerState) :
    ConsumerState :=
  match extract_mortality_data m with
  | none => st
  | some d =>
      let mr2 :=
        updMR (updMR st.mortality_rates ("Heart disease", d.region) d.rate)
          ("Heart disease", d.sex) d.rate
      let st1 : ConsumerState :=
        if d.cause = some "Heart disease" then { st with mortality_rates := mr2 }
        else st
      { st1 with
        cause_region_stats := upd2 st1.cause_region_stats d.cause d.region d.rate
        cause_gender_stats := upd2 st1.cause_gender_stats d.cause d.sex d.rate
        high_mortality_count :=
          st1.high_mortality_count + (if is_high_mortality d.rate then 1 else 0) }

/-- One step of the de-duplicating scan in `read_latest_messages`: a line
whose identity is already in the seen-set is skipped, otherwise it is
collected and its identity recorded. -/
def dedupStep (acc : List RawMessage × List String) (m : RawMessage) :
    List RawMessage × List String :=
  if msg_id m ∈ acc.2 then acc else (acc.1 ++ [m], acc.2 ++ [msg_id m])

/-- `read_latest_messages` (consumer lines 131-155): `none` models an absent
data file (`data_file.exists()` false, line 135), returning no new messages;
otherwise every not-yet-seen line is returned and marked seen.  Returns the
new messages together with the updated `processed_messages` set. -/
def read_latest_messages (file : Option (List RawMessage))
    (processed : List String) : List RawMessage × List String :=
  match file with
  | none => ([], processed)
  | some lines => lines.foldl dedupStep ([], processed)

/-- One iteration of the consumer's poll loop (consumer lines 239-249):
read the new messages, then process each in order. -/
def poll_cycle (file : Option (List RawMessage)) (st : ConsumerState) :
    ConsumerState :=
  let rp := read_latest_messages file st.processed_messages
  rp.1.foldl (fun s m => process_and_store_message m s)
    { st with processed_messages := rp.2 }

/-- Processing a list of already de-duplicated records from the start state
(the records that reach `process_and_store_message`). -/
def ingestList (msgs : List RawMessage) : ConsumerState :=
  msgs.foldl (fun s m => process_and_store_message m s) initState

/-- The per-gender bar value of `animate_dashboard` (consumer lines 180-183):
`sum(l) / len(l)` when the stats list is non-empty, else `0`. -/
def displayed_mean (l : List ℚ) : ℚ :=
  if l = [] then 0 else l.sum / (l.length : ℚ)

/-- `read_new_messages` of `project_consumer_anjana.py` (lines 67-72): the
file is opened unconditionally, so an absent file (`none`) raises
`FileNotFoundError`; otherwise the lines past `last_pos` are returned along
with the new position.  Positions are counted in lines (the byte offsets of
`f.seek` / `f.tell` play the same role for the properties at stake). -/
def read_new_messages (file : Option (List RawMessage)) (last_pos : ℕ) :
    Except String (List RawMessage × ℕ) :=
  match file with
  | none => Except.error "FileNotFoundError"
  | some lines => Except.ok (lines.drop last_pos, lines.length)

/-- One iteration of `project_consumer_anjana.main`'s poll loop (lines
81-91): read from the last position and store every new message.  The
surrounding `try` only catches `KeyboardInterrupt`, so a read error
propagates out of the loop. -/
def project_consumer_iteration (file : Option (List RawMessage))
    (last_pos : ℕ) (stored : List RawMessage) :
    Except String (ℕ × List RawMessage) :=
  match read_new_messages file last_pos with
  | Except.error e => Except.error e
  | Except.ok (lines, new_pos) => Except.ok (new_pos, stored ++ lines)

/-- One CSV row of mortality data as loaded by `load_mortality_data`
(producer lines 73-89). -/
structure PRecord where
  region : String
  status : String
  sex : String
  cause : String
  rate : ℚ
  se : ℚ
deriving DecidableEq, Repr

/-- Two-digit decimal field of `strftime`. -/
def pad2 (n : ℕ) : String :=
  if n < 10 then "0" ++ toString n else toString n

/-- The timestamp string emitted for the `k`-th message (producer lines
145-148): the base datetime `2025-09-27 23:44:00` with minute replaced by
`k % 60` and hour by `(k / 60) % 24`, formatted `"%Y-%m-%d %H:%M:%S"`. -/
def timestamp_str (k : ℕ) : String :=
  "2025-09-27 " ++ pad2 (k / 60 % 24) ++ ":" ++ pad2 (k % 60) ++ ":00"

/-- Python `region.replace(' ', '_')` (producer line 155). -/
def pyReplaceSpace (s : String) : String :=
  String.mk (s.data.map (fun c => if c = ' ' then '_' else c))

/-- The ordered `RATE_THRESHOLDS` dict of the producer (lines 98-102);
an upper bound of `none` models `float('inf')`. -/
def RATE_THRESHOLDS : List (String × ℚ × Option ℚ) :=
  [("High", 100, none), ("Medium", 50, some 100), ("Low", 0, some 50)]

/-- The guard `min_rate <= rate < max_rate` of the threshold loop
(producer line 130). -/
def inBracket (rate lo : ℚ) (hi : Option ℚ) : Bool :=
  decide (lo ≤ rate) && (match hi with
    | none => true
    | some h => decide (rate < h))

/-- The `for keyword, (min_rate, max_rate) in RATE_THRESHOLDS.items()` loop
with `break` (producer lines 129-138): first matching bracket wins; `none`
when no bracket matches (the loop then falls through with the keyword
variable unassigned, a `NameError` on the first record). -/
def matchThreshold (rate : ℚ) : List (String × ℚ × Option ℚ) → Option String
  | [] => none
  | (kw, lo, hi) :: rest =>
      if inBracket rate lo hi then some kw else matchThreshold rate rest

/-- Keyword assigned by the producer to a rate. -/
def producer_keyword (rate : ℚ) : Option String :=
  matchThreshold rate RATE_THRESHOLDS

/-- Sentiment bracket drawn for each keyword (producer lines 132-137):
`random.uniform(0.1, 0.3)` for High, `(0.4, 0.7)` for Medium, and the
`else` branch `(0.8, 1.0)` for Low. -/
def sentiment_bracket : String → ℚ × ℚ
  | "High" => (1/10, 3/10)
  | "Medium" => (2/5, 7/10)
  | _ => (4/5, 1)

/-- `random.uniform(a, b)` = `a + (b - a) * u` with the library's
`random()` draw `u ∈ [0, 1)` made explicit. -/
def uniformQ (a b u : ℚ) : ℚ := a + (b - a) * u

/-- The `k`-th message (0-indexed) emitted by `generate_mortality_messages`
(producer lines 119-170) over a loaded record list `data`: the `while True`
loop cycles through `data`, so message `k` uses record `k % data.length`;
its author is the record's region with spaces replaced by underscores and
its timestamp is `timestamp_str k`.  The random free-text `message` and
`sentiment` fields are not part of the de-duplication identity and are
omitted. -/
def genMessage (data : List PRecord) (k : ℕ) : RawMessage :=
  let r := data.getD (k % data.length) ⟨"", "", "", "", 0, 0⟩
  { region := some r.region, status := some r.status, sex := some r.sex,
    cause := some r.cause, rate := some (JNum.num r.rate),
    se := some (JNum.num r.se), timestamp := some (timestamp_str k),
    author := some (pyReplaceSpace r.region),
    keyword_mentioned := producer_keyword r.rate }

/-- A record list as `load_mortality_data` could return it: every region is
one of the three allowed HHS regions (the CSV contents themselves are
external data, not part of the repository).  Seven records makes the cycle length coprime to the 1440-minute
timestamp period, so message 1440 reuses the timestamp of message 0 while
drawing a different record. -/
def demoData : List PRecord :=
  [⟨"HHS Region 01", "Urban", "Male", "Heart disease", 10, 1⟩,
   ⟨"HHS Region 02", "Urban", "Male", "Heart disease", 20, 1⟩,
   ⟨"HHS Region 02", "Rural", "Male", "Cancer", 30, 1⟩,
   ⟨"HHS Region 03", "Urban", "Female", "Cancer", 40, 1⟩,
   ⟨"HHS Region 03", "Rural", "Female", "Heart disease", 50, 1⟩,
   ⟨"HHS Region 01", "Rural", "Female", "Cancer", 150, 2⟩,
   ⟨"HHS Region 02", "Urban", "Female", "Heart disease", 60, 1⟩]

/-- Contribution of one inbound message to the `cause_gender_stats` list of
key `(c, g)`: its rate if it extracts successfully with that cause and sex,
nothing otherwise. -/
def contribGender (m : RawMessage) (c g : Option String) : List ℚ :=
  match extract_mortality_data m with
  | none => []
  | some d => if d.cause = c ∧ d.sex = g then [d.rate] else []

/-- All rate values a message list contributes to the `(c, g)` entry of
`cause_gender_stats`, in arrival order. -/
def ratesForGender : List RawMessage → Option String → Option String → List ℚ
  | [], _, _ => []
  | m :: ms, c, g => contribGender m c g ++ ratesForGender ms c g

/-- Contribution of one message to `high_mortality_count`: 1 when it
extracts successfully with rate at or above the threshold, else 0. -/
def highContrib (m : RawMessage) : ℕ :=
  match extract_mortality_data m with
  | none => 0
  | some d => if is_high_mortality d.rate then 1 else 0

/-- Number of successfully extracted records of a message list whose rate
is at or above the high-mortality threshold. -/
def countHigh (msgs : List RawMessage) : ℕ :=
  ((msgs.filterMap extract_mortality_data).filter
    (fun d => is_high_mortality d.rate)).length

lemma read_latest_append_seen (L : List RawMessage) (p : List String)
    (m : RawMessage)
    (h : msg_id m ∈ (read_latest_messages (some L) p).2) :
    read_latest_messages (some (L ++ [m])) p =
      read_latest_messages (some L) p := by
  show (L ++ [m]).foldl dedupStep ([], p) = L.foldl dedupStep ([], p)
  rw [List.foldl_append]
  show dedupStep (L.foldl dedupStep ([], p)) m = L.foldl dedupStep ([], p)
  unfold dedupStep
  exact if_pos h

/-- C1.  Idempotent replay: a second line carrying an already-seen
`author_timestamp` identity is dropped by `read_latest_messages` before it
can reach `process_and_store_message`, so the poll cycle produces exactly
the state it would have produced without the duplicate line — every
aggregate list, rolling window and the high-mortality counter included. -/
theorem claim_C1_idempotent_replay (st : ConsumerState) (L : List RawMessage)
    (m : RawMessage)
    (h : msg_id m ∈ (read_latest_messages (some L) st.processed_messages).2) :
    poll_cycle (some (L ++ [m])) st = poll_cycle (some L) st := by
  unfold poll_cycle
  rw [read_latest_append_seen L st.processed_messages m h]

/-- A concrete well-formed message used by several witnesses. -/
def wMsg : RawMessage :=
  { region := some "HHS Region 01", status := some "Urban", sex := some "Male",
    cause := some "Heart disease", rate := some (JNum.num 150),
    se := some (JNum.num 1), timestamp := some "2025-09-27 00:00:00",
    author := some "HHS_Region_01", keyword_mentioned := some "High" }

theorem claim_C1_witness :
    msg_id wMsg ∈ (read_latest_messages (some [wMsg])
      initState.processed_messages).2 ∧
    poll_cycle (some ([wMsg] ++ [wMsg])) initState =
      poll_cycle (some [wMsg]) initState :=
  ⟨by decide, claim_C1_idempotent_replay initState [wMsg] wMsg (by decide)⟩

lemma dequeAppend_shift (ws : List ℚ) (v : ℚ) :
    dequeAppend 20 (ws.drop (ws.length - 20)) v =
      (ws ++ [v]).drop ((ws ++ [v]).length - 20) := by
  unfold dequeAppend
  rw [← List.drop_append_of_le_length (Nat.sub_le _ _), List.drop_drop]
  congr 1
  simp only [List.length_append, List.length_drop, List.length_cons,
    List.length_nil]
  omega

lemma foldl_dequeAppend (vs : List ℚ) : ∀ ws : List ℚ,
    vs.foldl (dequeAppend 20) (ws.drop (ws.length - 20)) =
      (ws ++ vs).drop ((ws ++ vs).length - 20) := by
  induction vs with
  | nil => intro ws; simp
  | cons v vs ih =>
      intro ws
      rw [List.foldl_cons, dequeAppend_shift]
      have h := ih (ws ++ [v])
      rw [List.append_assoc] at h
      simpa using h

lemma foldl_updMR_apply (k : String × Option String)
    (f0 : String × Option String → List ℚ) (vs : List ℚ) :
    (vs.foldl (fun f v => updMR f k v) f0) k =
      vs.foldl (dequeAppend 20) (f0 k) := by
  induction vs generalizing f0 with
  | nil => rfl
  | cons v vs ih =>
      rw [List.foldl_cons, List.foldl_cons, ih]
      congr 1
      unfold updMR
      exact if_pos rfl

/-- C3.  Rolling window: appending `n` rate values into the
`mortality_rates` entry of any key (each append going through the
capacity-20 `deque`) leaves a buffer of at most 20 elements whose contents
are exactly the last `min(n, 20)` appended values in arrival order; in
particular 25 appends leave exactly `values[5:25]`. -/
theorem claim_C3_rolling_window (k : String × Option String) (vs : List ℚ) :
    ((vs.foldl (fun f v => updMR f k v) initState.mortality_rates) k).length
        ≤ 20 ∧
    (vs.foldl (fun f v => updMR f k v) initState.mortality_rates) k =
        vs.drop (vs.length - 20) ∧
    (vs.length = 25 →
      ((vs.foldl (fun f v => updMR f k v) initState.mortality_rates) k).length
          = 20 ∧
      (vs.foldl (fun f v => updMR f k v) initState.mortality_rates) k =
          vs.drop 5) := by
  have hfold : (vs.foldl (fun f v => updMR f k v) initState.mortality_rates) k
      = vs.drop (vs.length - 20) := by
    rw [foldl_updMR_apply]
    have h := foldl_dequeAppend vs []
    simpa [initState] using h
  refine ⟨?_, hfold, fun h25 => ⟨?_, ?_⟩⟩
  · rw [hfold, List.length_drop]; omega
  · rw [hfold, List.length_drop]; omega
  · rw [hfold, h25]

theorem claim_C3_witness :
    (([10, 11, 12, 13, 14, 15, 16, 17, 18, 19, 20, 21, 22, 23, 24, 25, 26,
       27, 28, 29, 30, 31, 32, 33, 34] : List ℚ).length = 25) ∧
    (([10, 11, 12, 13, 14, 15, 16, 17, 18, 19, 20, 21, 22, 23, 24, 25, 26,
       27, 28, 29, 30, 31, 32, 33, 34] : List ℚ).foldl
        (fun f v => updMR f ("Heart disease", some "HHS Region 01") v)
        initState.mortality_rates) ("Heart disease", some "HHS Region 01") =
      ([10, 11, 12, 13, 14, 15, 16, 17, 18, 19, 20, 21, 22, 23, 24, 25, 26,
        27, 28, 29, 30, 31, 32, 33, 34] : List ℚ).drop 5 :=
  ⟨by decide,
   ((claim_C3_rolling_window ("Heart disease", some "HHS Region 01")
      [10, 11, 12, 13, 14, 15, 16, 17, 18, 19, 20, 21, 22, 23, 24, 25, 26,
       27, 28, 29, 30, 31, 32, 33, 34]).2.2 (by decide)).2⟩

lemma process_high_step (m : RawMessage) (st : ConsumerState) :
    (process_and_store_message m st).high_mortality_count =
      st.high_mortality_count + highContrib m := by
  unfold process_and_store_message highContrib
  cases hext : extract_mortality_data m
  · simp
  · rename_i d
    by_cases hc : d.cause = some "Heart disease" <;> simp [hc]

lemma countHigh_cons (m : RawMessage) (ms : List RawMessage) :
    countHigh (m :: ms) = highContrib m + countHigh ms := by
  unfold countHigh highContrib
  cases hext : extract_mortality_data m
  · simp [List.filterMap_cons, hext]
  · rename_i d
    by_cases hh : is_high_mortality d.rate <;>
      simp [List.filterMap_cons, hext, List.filter_cons, hh, Nat.add_comm]

lemma foldl_process_high (msgs : List RawMessage) : ∀ st : ConsumerState,
    (msgs.foldl (fun s m => process_and_store_message m s)
        st).high_mortality_count =
      st.high_mortality_count + countHigh msgs := by
  induction msgs with
  | nil => intro st; simp [countHigh]
  | cons m ms ih =>
      intro st
      rw [List.foldl_cons, ih, process_high_step, countHigh_cons]
      omega

lemma dedup_all_new : ∀ (msgs : List RawMessage) (acc : List RawMessage)
    (p : List String), (∀ m ∈ msgs, msg_id m ∉ p) →
    (msgs.map msg_id).Nodup →
    msgs.foldl dedupStep (acc, p) = (acc ++ msgs, p ++ msgs.map msg_id)
  | [], acc, p, _, _ => by simp
  | m :: ms, acc, p, hp, hnd => by
    rw [List.foldl_cons]
    have hmp : msg_id m ∉ p := hp m (by simp)
    have hstep : dedupStep (acc, p) m = (acc ++ [m], p ++ [msg_id m]) := by
      unfold dedupStep
      exact if_neg hmp
    rw [hstep]
    rw [List.map_cons, List.nodup_cons] at hnd
    have hrec := dedup_all_new ms (acc ++ [m]) (p ++ [msg_id m]) ?_ hnd.2
    · rw [hrec]
      simp
    · intro m2 hm2
      simp only [List.mem_append, List.mem_singleton]
      rintro (h1 | h2)
      · exact hp m2 (by simp [hm2]) h1
      · exact hnd.1 (h2 ▸ List.mem_map_of_mem msg_id hm2)

lemma read_all_new (msgs : List RawMessage)
    (hnd : (msgs.map msg_id).Nodup) :
    read_latest_messages (some msgs) [] = (msgs, msgs.map msg_id) := by
  show msgs.foldl dedupStep ([], []) = _
  rw [dedup_all_new msgs [] [] (by simp) hnd]
  simp

lemma process_gender_step (m : RawMessage) (st : ConsumerState)
    (c g : Option String) :
    (process_and_store_message m st).cause_gender_stats c g =
      st.cause_gender_stats c g ++ contribGender m c g := by
  unfold process_and_store_message contribGender
  cases hext : extract_mortality_data m
  · simp
  · rename_i d
    have key : ∀ (f : Option String → Option String → List ℚ)
        (a b : Option String) (v : ℚ),
        upd2 f a b v c g = f c g ++ (if a = c ∧ b = g then [v] else []) := by
      intro f a b v
      unfold upd2
      by_cases hcg : c = a ∧ g = b
      · obtain ⟨h1, h2⟩ := hcg
        subst h1; subst h2
        simp
      · rw [if_neg hcg, if_neg, List.append_nil]
        intro hcg2
        exact hcg ⟨hcg2.1.symm, hcg2.2.symm⟩
    by_cases hc : d.cause = some "Heart disease" <;> simp only [hc] <;>
      simp [key]

lemma foldl_process_gender (msgs : List RawMessage) : ∀ (st : ConsumerState)
    (c g : Option String),
    (msgs.foldl (fun s m => process_and_store_message m s)
        st).cause_gender_stats c g =
      st.cause_gender_stats c g ++ ratesForGender msgs c g := by
  induction msgs with
  | nil => intro st c g; simp [ratesForGender]
  | cons m ms ih =>
      intro st c g
      rw [List.foldl_cons, ih, process_gender_step]
      simp [ratesForGender]

/-- C2.  For any sequence of records with pairwise distinct identities the
`(cause, gender)` stats list equals the list of rate values ingested for
that key, so the bar value the dashboard computes (`sum(l)/len(l)` when the
list is non-empty, `0` otherwise) is exactly the arithmetic mean of the
ingested rates, with the empty case rendered as `0` by policy rather than
as an error. -/
theorem claim_C2_displayed_mean (msgs : List RawMessage)
    (c g : Option String) (hnd : (msgs.map msg_id).Nodup) :
    (poll_cycle (some msgs) initState).cause_gender_stats c g =
      ratesForGender msgs c g ∧
    displayed_mean ((poll_cycle (some msgs) initState).cause_gender_stats c g)
      = (if ratesForGender msgs c g = [] then 0
         else (ratesForGender msgs c g).sum /
           ((ratesForGender msgs c g).length : ℚ)) := by
  have hread : read_latest_messages (some msgs) initState.processed_messages
      = (msgs, msgs.map msg_id) := read_all_new msgs hnd
  have hstats : (poll_cycle (some msgs) initState).cause_gender_stats c g =
      ratesForGender msgs c g := by
    unfold poll_cycle
    rw [hread, foldl_process_gender]
    simp [initState]
  refine ⟨hstats, ?_⟩
  rw [hstats]
  rfl

/-- A second well-formed message with a distinct identity from `wMsg` and
the same cause and sex. -/
def wMsg2 : RawMessage :=
  { region := some "HHS Region 02", status := some "Rural",
    sex := some "Male", cause := some "Heart disease",
    rate := some (JNum.num 50), se := some (JNum.num 1),
    timestamp := some "2025-09-27 00:01:00",
    author := some "HHS_Region_02", keyword_mentioned := some "Medium" }

theorem claim_C2_witness :
    (([wMsg, wMsg2].map msg_id).Nodup) ∧
    ((poll_cycle (some [wMsg, wMsg2]) initState).cause_gender_stats
        (some "Heart disease") (some "Male") =
      ratesForGender [wMsg, wMsg2] (some "Heart disease") (some "Male") ∧
    displayed_mean ((poll_cycle (some [wMsg, wMsg2])
        initState).cause_gender_stats (some "Heart disease") (some "Male"))
      = (if ratesForGender [wMsg, wMsg2] (some "Heart disease")
            (some "Male") = [] then 0
         else (ratesForGender [wMsg, wMsg2] (some "Heart disease")
            (some "Male")).sum /
           ((ratesForGender [wMsg, wMsg2] (some "Heart disease")
            (some "Male")).length : ℚ))) :=
  ⟨by decide, claim_C2_displayed_mean [wMsg, wMsg2] (some "Heart disease")
    (some "Male") (by decide)⟩

/-- C4.  The high-mortality counter after ingesting any list of
(already de-duplicated) records equals the number of successfully extracted
records whose rate is at least the fixed threshold 100, the boundary
`rate == 100` counting as high (`is_high_mortality` is `100 ≤ rate`,
inclusive). -/
theorem claim_C4_high_count (msgs : List RawMessage) :
    (ingestList msgs).high_mortality_count = countHigh msgs := by
  unfold ingestList
  rw [foldl_process_high]
  simp [initState]

/-- C9.  The high-mortality counter is monotone: every single ingest adds
exactly `highContrib` (0 or 1, decided against the threshold 100 fixed in
`is_high_mortality`), no step ever decrements or resets it, and a whole
poll cycle can only increase it. -/
theorem claim_C9_monotone :
    (∀ (m : RawMessage) (st : ConsumerState),
      (process_and_store_message m st).high_mortality_count =
        st.high_mortality_count + highContrib m) ∧
    (∀ m : RawMessage, highContrib m ≤ 1) ∧
    (∀ (file : Option (List RawMessage)) (st : ConsumerState),
      st.high_mortality_count ≤ (poll_cycle file st).high_mortality_count) := by
  refine ⟨process_high_step, ?_, ?_⟩
  · intro m
    unfold highContrib
    split
    · omega
    · split <;> omega
  · intro file st
    show st.high_mortality_count ≤
      ((read_latest_messages file st.processed_messages).1.foldl
        (fun s m => process_and_store_message m s)
        { st with processed_messages :=
            (read_latest_messages file st.processed_messages).2
        }).high_mortality_count
    rw [foldl_process_high]
    exact Nat.le_add_right _ _

/-- A message carrying a cause other than `"Heart disease"`. -/
def mCancer : RawMessage :=
  { region := some "HHS Region 01", status := some "Urban",
    sex := some "Male", cause := some "Cancer",
    rate := some (JNum.num 150), se := some (JNum.num 1),
    timestamp := some "2025-09-27 00:02:00",
    author := some "HHS_Region_01", keyword_mentioned := some "High" }

/-- C5 counterexample.  An accepted record with cause `"Cancer"` is fully
extracted and reaches the aggregate maps (its rate lands in
`cause_region_stats`), yet neither rolling-window key named by the claim
receives the rate: step 4 is guarded by `cause == "Heart disease"`
(consumer line 102), not unconditional. -/
theorem claim_C5_counterexample :
    extract_mortality_data mCancer ≠ none ∧
    (process_and_store_message mCancer initState).cause_region_stats
      (some "Cancer") (some "HHS Region 01") = [150] ∧
    (process_and_store_message mCancer initState).mortality_rates
      ("Cancer", some "HHS Region 01") = [] ∧
    (process_and_store_message mCancer initState).mortality_rates
      ("Cancer", some "Male") = [] := by decide

/-- C5 as amended.  The rolling-window appends run exactly for accepted
records whose extracted cause equals `"Heart disease"`: those append the
rate to the windows keyed `("Heart disease", region)` and
`("Heart disease", sex)` (in that order); records with any other cause
leave every rolling window untouched. -/
theorem claim_C5_amended (m : RawMessage) (st : ConsumerState)
    (d : MortalityData) (hext : extract_mortality_data m = some d) :
    (d.cause ≠ some "Heart disease" →
      (process_and_store_message m st).mortality_rates =
        st.mortality_rates) ∧
    (d.cause = some "Heart disease" →
      (process_and_store_message m st).mortality_rates =
        updMR (updMR st.mortality_rates ("Heart disease", d.region) d.rate)
          ("Heart disease", d.sex) d.rate) := by
  unfold process_and_store_message
  rw [hext]
  constructor
  · intro hc
    simp [hc]
  · intro hc
    simp [hc]

/-- The extraction result of `wMsg`. -/
def wData : MortalityData :=
  { region := some "HHS Region 01", status := some "Urban",
    sex := some "Male", cause := some "Heart disease", rate := 150, se := 1,
    timestamp := some "2025-09-27 00:00:00", author := some "HHS_Region_01",
    keyword_mentioned := some "High" }

theorem claim_C5_witness :
    extract_mortality_data wMsg = some wData ∧
    (process_and_store_message wMsg initState).mortality_rates =
      updMR (updMR initState.mortality_rates
          ("Heart disease", some "HHS Region 01") 150)
        ("Heart disease", some "Male") 150 :=
  ⟨rfl, (claim_C5_amended wMsg initState wData rfl).2 rfl⟩

lemma coerceNum_eq_none (o : Option JNum) :
    coerceNum o = none ↔ o = some JNum.bad := by
  cases o with
  | none => simp [coerceNum]
  | some j => cases j <;> simp [coerceNum]

lemma extract_eq_none_iff (m : RawMessage) :
    extract_mortality_data m = none ↔
      coerceNum m.rate = none ∨ coerceNum m.se = none := by
  unfold extract_mortality_data
  cases coerceNum m.rate <;> cases coerceNum m.se <;> simp

/-- A message whose `rate` field is present but not coercible by `float`. -/
def mBadRate : RawMessage :=
  { region := some "HHS Region 01", status := some "Urban",
    sex := some "Male", cause := some "Cancer", rate := some JNum.bad,
    se := some (JNum.num 1), timestamp := some "2025-09-27 00:04:00",
    author := some "HHS_Region_01", keyword_mentioned := none }

/-- A message whose `rate` field is absent altogether. -/
def mMissingRate : RawMessage :=
  { region := some "HHS Region 01", status := some "Urban",
    sex := some "Male", cause := some "Cancer", rate := none,
    se := some (JNum.num 1), timestamp := some "2025-09-27 00:03:00",
    author := some "HHS_Region_01", keyword_mentioned := none }

/-- The extraction result of `mMissingRate`: accepted, with rate
defaulted to 0. -/
def mMissingData : MortalityData :=
  { region := some "HHS Region 01", status := some "Urban",
    sex := some "Male", cause := some "Cancer", rate := 0, se := 1,
    timestamp := some "2025-09-27 00:03:00", author := some "HHS_Region_01",
    keyword_mentioned := none }

/-- C6 counterexample.  A message with no `rate` field at all is NOT
rejected by `extract_mortality_data`: `message.get("rate", 0)` substitutes
the default `0`, the record is extracted with rate `0.0`, and it reaches
the aggregation step, contributing an element to `cause_region_stats`. -/
theorem claim_C6_counterexample :
    extract_mortality_data mMissingRate = some mMissingData ∧
    (process_and_store_message mMissingRate initState).cause_region_stats
      (some "Cancer") (some "HHS Region 01") = [0] := by decide

/-- C6 as amended.  The extraction step rejects a record exactly when the
`rate` or `se` field is present but fails numeric coercion (`float`
raises); a rejected record never reaches the aggregation logic; a record
with the field missing is instead accepted with the default value `0.0`. -/
theorem claim_C6_amended (m : RawMessage) (st : ConsumerState) :
    (extract_mortality_data m = none ↔
      m.rate = some JNum.bad ∨ m.se = some JNum.bad) ∧
    (extract_mortality_data m = none →
      process_and_store_message m st = st) ∧
    (m.rate = none → m.se ≠ some JNum.bad →
      ∃ d, extract_mortality_data m = some d ∧ d.rate = 0) := by
  refine ⟨?_, ?_, ?_⟩
  · rw [extract_eq_none_iff]
    rw [coerceNum_eq_none, coerceNum_eq_none]
  · intro h
    unfold process_and_store_message
    rw [h]
  · intro h1 h2
    cases hs : coerceNum m.se with
    | none => exact absurd ((coerceNum_eq_none m.se).mp hs) h2
    | some s =>
        refine ⟨{ region := m.region, status := m.status, sex := m.sex,
                  cause := m.cause, rate := 0, se := s,
                  timestamp := m.timestamp, author := m.author,
                  keyword_mentioned := m.keyword_mentioned }, ?_, rfl⟩
        unfold extract_mortality_data
        rw [h1, hs]
        rfl

theorem claim_C6_witness :
    (extract_mortality_data mBadRate = none ↔
      mBadRate.rate = some JNum.bad ∨ mBadRate.se = some JNum.bad) ∧
    process_and_store_message mBadRate initState = initState :=
  ⟨(claim_C6_amended mBadRate initState).1,
   (claim_C6_amended mBadRate initState).2.1 (by decide)⟩

/-- C7 counterexample.  In `project_consumer_anjana.py` the read step opens
the source file unconditionally, so when the file does not exist it raises
`FileNotFoundError`; the poll loop only catches `KeyboardInterrupt`, so the
iteration aborts with the error instead of continuing with no new
messages — refuting the claim for this consumer variant. -/
theorem claim_C7_counterexample :
    read_new_messages none 0 = Except.error "FileNotFoundError" ∧
    project_consumer_iteration none 0 [] =
      Except.error "FileNotFoundError" :=
  ⟨rfl, rfl⟩

/-- C7 as amended.  An absent source file is non-fatal only in
`consumer_mortality_anjana.py`: there `read_latest_messages` returns no new
messages and the poll cycle leaves the whole aggregate state unchanged.  In
`project_consumer_anjana.py` the same condition raises `FileNotFoundError`
out of the loop iteration (only `KeyboardInterrupt` is caught). -/
theorem claim_C7_amended :
    (∀ p : List String, read_latest_messages none p = ([], p)) ∧
    (∀ st : ConsumerState, poll_cycle none st = st) ∧
    (∀ (pos : ℕ) (stored : List RawMessage),
      project_consumer_iteration none pos stored =
        Except.error "FileNotFoundError") :=
  ⟨fun _ => rfl, fun _ => rfl, fun _ _ => rfl⟩

/-- C8.  The de-duplication identity is not unique across distinct producer
outputs: the emitted timestamp depends only on the message index modulo
1440 (fixed date, hour `(k / 60) % 24`, minute `k % 60`) and the author
only on the record's region, so a generator cycling over a record list
whose length does not divide 1440 emits, at indices 0 and 1440, two
messages with different rate, sex, status and cause but identical author
and timestamp — and the consumer's `read_latest_messages` falsely
suppresses the second one as a duplicate. -/
theorem claim_C8_identity_collision :
    (∀ k : ℕ, timestamp_str (k + 1440) = timestamp_str k) ∧
    ((genMessage demoData 0).author = (genMessage demoData 1440).author ∧
     (genMessage demoData 0).timestamp =
       (genMessage demoData 1440).timestamp ∧
     (genMessage demoData 0).rate ≠ (genMessage demoData 1440).rate ∧
     (genMessage demoData 0).sex ≠ (genMessage demoData 1440).sex ∧
     (genMessage demoData 0).status ≠ (genMessage demoData 1440).status ∧
     (genMessage demoData 0).cause ≠ (genMessage demoData 1440).cause ∧
     read_latest_messages
        (some [genMessage demoData 0, genMessage demoData 1440]) [] =
       ([genMessage demoData 0], [msg_id (genMessage demoData 0)])) := by
  constructor
  · intro k
    unfold timestamp_str
    have h1 : (k + 1440) / 60 % 24 = k / 60 % 24 := by omega
    have h2 : (k + 1440) % 60 = k % 60 := by omega
    rw [h1, h2]
  · decide

lemma producer_keyword_high (r : ℚ) (h : 100 ≤ r) :
    producer_keyword r = some "High" := by
  simp [producer_keyword, RATE_THRESHOLDS, matchThreshold, inBracket, h]

lemma producer_keyword_medium (r : ℚ) (h1 : 50 ≤ r) (h2 : r < 100) :
    producer_keyword r = some "Medium" := by
  have h3 : ¬ 100 ≤ r := not_le.mpr (by linarith)
  simp [producer_keyword, RATE_THRESHOLDS, matchThreshold, inBracket,
    h1, h2, h3]

lemma producer_keyword_low (r : ℚ) (h1 : 0 ≤ r) (h2 : r < 50) :
    producer_keyword r = some "Low" := by
  have h3 : ¬ 100 ≤ r := not_le.mpr (by linarith)
  have h4 : ¬ 50 ≤ r := not_le.mpr (by linarith)
  simp [producer_keyword, RATE_THRESHOLDS, matchThreshold, inBracket,
    h1, h2, h3, h4]

lemma producer_keyword_neg (r : ℚ) (h : r < 0) :
    producer_keyword r = none := by
  have h1 : ¬ 100 ≤ r := not_le.mpr (by linarith)
  have h2 : ¬ 50 ≤ r := not_le.mpr (by linarith)
  have h3 : ¬ 0 ≤ r := not_le.mpr h
  simp [producer_keyword, RATE_THRESHOLDS, matchThreshold, inBracket,
    h1, h2, h3]

/-- C10.  The producer's threshold loop assigns exactly one keyword to each
record with nonnegative rate — `"High"` iff `rate ≥ 100` (agreeing with the
consumer's inclusive `is_high_mortality` boundary), `"Medium"` iff
`50 ≤ rate < 100`, `"Low"` iff `0 ≤ rate < 50` — and the sentiment drawn by
`random.uniform` lies inside the bracket of the assigned keyword; for a
negative rate no bracket matches, so the keyword variable is never assigned
and the generator fails on a first such record instead of emitting a
message. -/
theorem claim_C10_keyword :
    (∀ rate : ℚ, 0 ≤ rate →
      ((producer_keyword rate = some "High") ↔ 100 ≤ rate) ∧
      ((producer_keyword rate = some "Medium") ↔ 50 ≤ rate ∧ rate < 100) ∧
      ((producer_keyword rate = some "Low") ↔ 0 ≤ rate ∧ rate < 50) ∧
      ((producer_keyword rate = some "High") ↔
        is_high_mortality rate = true)) ∧
    (∀ rate : ℚ, rate < 0 → producer_keyword rate = none) ∧
    (∀ (rate : ℚ) (kw : String) (u : ℚ), producer_keyword rate = some kw →
      0 ≤ u → u < 1 →
      (sentiment_bracket kw).1 ≤
        uniformQ (sentiment_bracket kw).1 (sentiment_bracket kw).2 u ∧
      uniformQ (sentiment_bracket kw).1 (sentiment_bracket kw).2 u ≤
        (sentiment_bracket kw).2) := by
  have hiff : ∀ rate : ℚ, 0 ≤ rate →
      ((producer_keyword rate = some "High") ↔ 100 ≤ rate) ∧
      ((producer_keyword rate = some "Medium") ↔ 50 ≤ rate ∧ rate < 100) ∧
      ((producer_keyword rate = some "Low") ↔ 0 ≤ rate ∧ rate < 50) := by
    intro rate h0
    by_cases h100 : 100 ≤ rate
    · rw [producer_keyword_high rate h100]
      exact ⟨iff_of_true rfl h100,
        iff_of_false (by decide)
          (fun hh => absurd hh.2 (not_lt.mpr (by linarith))),
        iff_of_false (by decide)
          (fun hh => absurd hh.2 (not_lt.mpr (by linarith)))⟩
    · by_cases h50 : 50 ≤ rate
      · rw [producer_keyword_medium rate h50 (not_le.mp h100)]
        exact ⟨iff_of_false (by decide) h100,
          iff_of_true rfl ⟨h50, not_le.mp h100⟩,
          iff_of_false (by decide)
            (fun hh => absurd hh.2 (not_lt.mpr h50))⟩
      · rw [producer_keyword_low rate h0 (not_le.mp h50)]
        exact ⟨iff_of_false (by decide) h100,
          iff_of_false (by decide) (fun hh => absurd hh.1 h50),
          iff_of_true rfl ⟨h0, not_le.mp h50⟩⟩
  refine ⟨?_, producer_keyword_neg, ?_⟩
  · intro rate h0
    refine ⟨(hiff rate h0).1, (hiff rate h0).2.1, (hiff rate h0).2.2, ?_⟩
    rw [(hiff rate h0).1]
    unfold is_high_mortality
    simp
  · intro rate kw u hk h0u h1u
    have hcases : kw = "High" ∨ kw = "Medium" ∨ kw = "Low" := by
      rcases lt_or_le rate 0 with hneg | hpos
      · rw [producer_keyword_neg rate hneg] at hk
        exact absurd hk (by simp)
      · by_cases h100 : 100 ≤ rate
        · rw [producer_keyword_high rate h100] at hk
          exact Or.inl (Option.some_injective _ hk).symm
        · by_cases h50 : 50 ≤ rate
          · rw [producer_keyword_medium rate h50 (not_le.mp h100)] at hk
            exact Or.inr (Or.inl (Option.some_injective _ hk).symm)
          · rw [producer_keyword_low rate hpos (not_le.mp h50)] at hk
            exact Or.inr (Or.inr (Option.some_injective _ hk).symm)
    rcases hcases with h | h | h <;> subst h
    · have hb : sentiment_bracket "High" = (1/10, 3/10) := rfl
      rw [hb]
      unfold uniformQ
      constructor <;> nlinarith
    · have hb : sentiment_bracket "Medium" = (2/5, 7/10) := rfl
      rw [hb]
      unfold uniformQ
      constructor <;> nlinarith
    · have hb : sentiment_bracket "Low" = (4/5, 1) := rfl
      rw [hb]
      unfold uniformQ
      constructor <;> nlinarith

theorem claim_C10_witness :
    (0:ℚ) ≤ 100 ∧ producer_keyword 100 = some "High" ∧
    (-1:ℚ) < 0 ∧ producer_keyword (-1) = none ∧
    (0:ℚ) ≤ 1/2 ∧ (1/2:ℚ) < 1 ∧
    (1/10:ℚ) ≤ uniformQ (1/10) (3/10) (1/2) ∧
    uniformQ (1/10) (3/10) (1/2) ≤ 3/10 := by
  have hpk : producer_keyword 100 = some "High" :=
    (claim_C10_keyword.1 100 (by norm_num)).1.mpr (by norm_num)
  have hs := claim_C10_keyword.2.2 100 "High" (1/2) hpk (by norm_num)
    (by norm_num)
  exact ⟨by norm_num, hpk, by norm_num,
    claim_C10_keyword.2.1 (-1) (by norm_num), by norm_num, by norm_num,
    hs.1, hs.2⟩

